import Mathlib

/-!
Shallow embedding of the Media-Player repository (two player screens, the
library screen, and the controls-visibility timer) for checking the
natural-language specification against the code.

Sources embedded:
- src/app/(tabs)/index.tsx   (video player screen)
- src/app/(tabs)/audio.tsx   (audio player screen)
- src/unnamed/part_000       (library screen)
-/

/-- Commands issued to the underlying expo-av engine by the screens
(playAsync, pauseAsync, setPositionAsync, setRateAsync, unloadAsync). -/
inductive EngineCmd where
  | play
  | pause
  | seekTo (positionMillis : Nat)
  | setRate (rate : ℚ)
  | unload
deriving DecidableEq

/-- The AVPlaybackStatus union delivered by expo-av, as the screens observe
it through key-presence tests. `empty` is the initial cast of the empty
object in index.tsx line 48 (no isLoaded key); `unloaded` is the
not-loaded variant (isLoaded key present and false, no position keys);
`loaded` carries isPlaying, positionMillis and the optional
durationMillis (the key is present exactly when the duration is known). -/
inductive AVPlaybackStatus where
  | empty
  | unloaded
  | loaded (isPlaying : Bool) (positionMillis : Nat) (durationMillis : Option Nat)
deriving DecidableEq

/-- The value of the expression `playbackStatus.isPlaying || false` in
index.tsx line 174: the isPlaying key is only present on a loaded status,
otherwise the read is undefined and the fallback gives false. -/
def AVPlaybackStatus.isPlayingOrFalse : AVPlaybackStatus → Bool
  | .loaded p _ _ => p
  | _ => false

/-- The test `"isLoaded" in playbackStatus` (index.tsx line 173): the key is
present on every real status object, absent only on the initial empty cast. -/
def AVPlaybackStatus.hasIsLoadedKey : AVPlaybackStatus → Bool
  | .empty => false
  | _ => true

/-- The speed table PLAYBACK_SPEEDS of index.tsx lines 35-44, in insertion
order (Object.keys preserves insertion order for these string keys). -/
def PLAYBACK_SPEEDS : List (String × ℚ) :=
  [(("0.5x"), 0.5), (("0.75x"), 0.75), (("1x"), 1.0), (("1.25x"), 1.25),
   (("1.5x"), 1.5), (("2x"), 2.0), (("3x"), 3.0), (("4x"), 4.0)]

/-- `Object.keys(PLAYBACK_SPEEDS)` (index.tsx line 113). -/
def speedKeys : List String := PLAYBACK_SPEEDS.map Prod.fst

/-- JavaScript `Array.prototype.indexOf`: index of the first occurrence, or
-1 when absent. -/
def jsIndexOf (l : List String) (x : String) : Int :=
  match l.findIdx? (fun y => y == x) with
  | some i => (i : Int)
  | none => -1

/-- The label-advance step of changeSpeed (index.tsx lines 113-116):
`nextIndex = (speeds.indexOf(currentSpeed) + 1) % speeds.length`,
`nextSpeed = speeds[nextIndex]`. -/
def nextSpeedLabel (currentSpeed : String) : String :=
  let nextIdx := ((jsIndexOf speedKeys currentSpeed + 1) % (speedKeys.length : Int)).toNat
  speedKeys.getD nextIdx ("")

/-- Lookup `PLAYBACK_SPEEDS[label]` (index.tsx line 121). -/
def speedValue (label : String) : ℚ :=
  ((PLAYBACK_SPEEDS.find? (fun p => p.1 == label)).map Prod.snd).getD 0

/-- State of the video player screen (index.tsx lines 47-57).
`videoRefLive` models `videoRef.current` being non-null (the Video
component is mounted once a uri is set). `engineEpoch` is model
bookkeeping only: it counts successive engine bindings (it increases when
a new source replaces the old one) so that staleness of an event can be
expressed; the source itself keeps no such tag. -/
structure VideoScreen where
  videoRefLive : Bool
  status : AVPlaybackStatus
  isPlaying : Bool
  currentSpeed : String
  videoUri : Option String
  currentFileName : String
  showControls : Bool
  engineEpoch : Nat
deriving DecidableEq

/-- Initial state of the video screen (useState initializers,
index.tsx lines 48-55). -/
def initVideoScreen : VideoScreen :=
  { videoRefLive := false
    status := AVPlaybackStatus.empty
    isPlaying := false
    currentSpeed := ("1x")
    videoUri := none
    currentFileName := ("")
    showControls := true
    engineEpoch := 0 }

/-- The non-canceled branch of pickVideo (index.tsx lines 87-92): it sets
only the uri and the file name (`asset.name || "Unknown"`). The Video
component remounts its engine for the new source, hence the epoch bump;
no other screen state is written by pickVideo. -/
def pickVideoSuccess (s : VideoScreen) (uri : String) (name : Option String) : VideoScreen :=
  { s with videoUri := some uri
           currentFileName := name.getD ("Unknown")
           videoRefLive := true
           engineEpoch := s.engineEpoch + 1 }

/-- onPlaybackStatusUpdate (index.tsx lines 171-176): stores the incoming
status wholesale and, when the status object carries the isLoaded key,
overwrites isPlaying with the engine-reported value. -/
def onPlaybackStatusUpdate (s : VideoScreen) (e : AVPlaybackStatus) : VideoScreen :=
  { s with status := e
           isPlaying := if e.hasIsLoadedKey then e.isPlayingOrFalse else s.isPlaying }

/-- Delivery of a status event tagged with the epoch of the engine binding
that produced it. The handler in the source receives only the status
object and never inspects any adapter identity, so the tag is ignored. -/
def deliverStatus (s : VideoScreen) (srcEpoch : Nat) (e : AVPlaybackStatus) : VideoScreen :=
  onPlaybackStatusUpdate s e

/-- togglePlayPause of the video screen (index.tsx lines 98-109): when the
video ref is live, issues pause if the local flag says playing else play;
the local isPlaying flag itself is not written here. Returns the new
screen state and the issued commands. -/
def videoTogglePlayPause (s : VideoScreen) : VideoScreen × List EngineCmd :=
  let cmds := if s.videoRefLive then
      if s.isPlaying then [EngineCmd.pause] else [EngineCmd.play]
    else []
  ({ s with showControls := true }, cmds)

/-- changeSpeed (index.tsx lines 111-125): advance the label through the
table and, when the ref is live, issue the rate command. -/
def changeSpeed (s : VideoScreen) : VideoScreen × List EngineCmd :=
  let nextSpeed := nextSpeedLabel s.currentSpeed
  ({ s with currentSpeed := nextSpeed, showControls := true },
   if s.videoRefLive then [EngineCmd.setRate (speedValue nextSpeed)] else [])

/-- The position computed by seekBackward (index.tsx line 130):
`Math.max(0, (status.positionMillis || 0) - 10000)` over JS numbers. -/
def seekBackwardTarget (pos : Nat) : Nat :=
  (max 0 ((pos : Int) - 10000)).toNat

/-- The position computed by seekForward (index.tsx lines 140-143):
`Math.min(status.durationMillis || 0, (status.positionMillis || 0) + 10000)`. -/
def seekForwardTarget (pos : Nat) (dur : Nat) : Nat :=
  min dur (pos + 10000)

/-- seekBackward (index.tsx lines 127-135): guarded by the ref being live
and the positionMillis key being present (i.e. a loaded status). -/
def seekBackward (s : VideoScreen) : VideoScreen × List EngineCmd :=
  let cmds := match s.status with
    | .loaded _ pos _ =>
        if s.videoRefLive then [EngineCmd.seekTo (seekBackwardTarget pos)] else []
    | _ => []
  ({ s with showControls := true }, cmds)

/-- seekForward (index.tsx lines 137-148): additionally guarded by the
durationMillis key being present. -/
def seekForward (s : VideoScreen) : VideoScreen × List EngineCmd :=
  let cmds := match s.status with
    | .loaded _ pos (some d) =>
        if s.videoRefLive then [EngineCmd.seekTo (seekForwardTarget pos d)] else []
    | _ => []
  ({ s with showControls := true }, cmds)

/-- Refinement comparison only: the seek target exactly as the
specification words it, `clamp(positionMillis + delta, 0,
durationMillis ?? positionMillis)`. This definition follows the spec text,
to be compared with the targets computed by the source. -/
def specSeekTarget (pos : Nat) (dur : Option Nat) (delta : Int) : Nat :=
  (min (max ((pos : Int) + delta) 0) ((dur.getD pos : Nat) : Int)).toNat

/-- Position after a sequence of seek steps at the UI increment, duration
known: `true` is a seekForward step, `false` a seekBackward step
(each seek is confirmed by the engine at exactly the issued target). -/
def posAfter (dur : Nat) (dirs : List Bool) (pos : Nat) : Nat :=
  dirs.foldl (fun p dir => if dir then seekForwardTarget p dur else seekBackwardTarget p) pos

/-- One pending host timeout: its handle, its fire deadline, and the value
of isPlaying captured by the scheduled callback. The callback of
index.tsx lines 67-71 closes over the isPlaying binding of the render
that created it, so the test `if (isPlaying)` inside the callback sees
the value current at scheduling time. -/
structure TimerEntry where
  id : Nat
  deadline : Nat
  capturedIsPlaying : Bool
deriving DecidableEq

/-- State of the controls-visibility subsystem of the video screen:
host time, the fresh-handle counter, the set of live timeouts scheduled
by the screen, the handle stored in controlsTimeoutRef, and the two
relevant pieces of screen state. -/
structure ControlsState where
  now : Nat
  nextId : Nat
  pending : List TimerEntry
  refId : Option Nat
  isPlaying : Bool
  showControls : Bool
deriving DecidableEq

/-- Initial controls state: no timeout scheduled, ref empty, not playing,
controls shown (useState initializers of index.tsx lines 49, 52, 57). -/
def initCtl : ControlsState :=
  { now := 0, nextId := 0, pending := [], refId := none
    isPlaying := false, showControls := true }

/-- clearTimeout on handle `i`: the host removes that timeout. -/
def clearPending (pending : List TimerEntry) (i : Nat) : List TimerEntry :=
  pending.filter (fun t => t.id != i)

/-- resetControlsTimeout (index.tsx lines 63-72): clear the timeout stored
in the ref, if any, then schedule a fresh one 3000 ms out whose callback
captures the current isPlaying, and store its handle in the ref. -/
def resetControlsTimeout (s : ControlsState) : ControlsState :=
  let cleared := match s.refId with
    | some i => clearPending s.pending i
    | none => s.pending
  { s with pending := cleared ++ [⟨s.nextId, s.now + 3000, s.isPlaying⟩]
           refId := some s.nextId
           nextId := s.nextId + 1 }

/-- The host fires timeout `i`: only a still-pending, due timeout runs; its
callback hides the controls exactly when the captured isPlaying was true
(index.tsx lines 67-71). The fired timeout is consumed. -/
def fireTimer (s : ControlsState) (i : Nat) : ControlsState :=
  match s.pending.find? (fun t => t.id == i) with
  | some t =>
      if t.deadline ≤ s.now then
        { s with pending := clearPending s.pending i
                 showControls := if t.capturedIsPlaying then false else s.showControls }
      else s
  | none => s

/-- Events of the controls subsystem: `touch` is any interaction (every
handler does setShowControls(true) then resetControlsTimeout),
`playState` is a status event updating isPlaying (the handler performs no
timer action), `tick` advances host time, `fire` lets the host run a due
timeout. -/
inductive CtlEvent where
  | touch
  | playState (b : Bool)
  | tick (d : Nat)
  | fire (i : Nat)
deriving DecidableEq

/-- One step of the controls subsystem. -/
def stepCtl (s : ControlsState) : CtlEvent → ControlsState
  | .touch => resetControlsTimeout { s with showControls := true }
  | .playState b => { s with isPlaying := b }
  | .tick d => { s with now := s.now + d }
  | .fire i => fireTimer s i

/-- Run of the controls subsystem from the initial state. -/
def runCtl (evs : List CtlEvent) : ControlsState :=
  evs.foldl stepCtl initCtl

/-- Invariant of the controls subsystem: every live timeout is the one
tracked by the ref, and there is at most one. -/
def CtlInv (s : ControlsState) : Prop :=
  (∀ t ∈ s.pending, s.refId = some t.id) ∧ s.pending.length ≤ 1

/-- State of the audio player screen (audio.tsx lines 29-35). `sound` is
the handle of the loaded Audio.Sound object, if any. -/
structure AudioScreen where
  sound : Option Nat
  isPlaying : Bool
  currentTrack : Option String
  trackName : String
  position : Nat
  duration : Nat
  isLoading : Bool
deriving DecidableEq

/-- Initial state of the audio screen (useState initializers). -/
def initAudioScreen : AudioScreen :=
  { sound := none, isPlaying := false, currentTrack := none
    trackName := (""), position := 0, duration := 0, isLoading := false }

/-- The non-canceled branch of pickAudio (audio.tsx lines 98-123): unload
the previous sound if any, install the fresh sound handle, set the track
uri and name (`asset.name || "Unknown Track"`), then read the status of
the new sound: if it reports loaded, store its durationMillis (or 0 when
the field is undefined). `engineStatus = none` models a not-loaded
report, `some d` a loaded report whose optional durationMillis is `d`.
isLoading ends false (the finally block). The position is never written. -/
def pickAudioSuccess (s : AudioScreen) (uri : String) (name : Option String)
    (newSound : Nat) (engineStatus : Option (Option Nat)) : AudioScreen × List EngineCmd :=
  let unloadCmds := if s.sound.isSome then [EngineCmd.unload] else []
  let s1 := { s with sound := some newSound
                     currentTrack := some uri
                     trackName := name.getD ("Unknown Track")
                     isLoading := false }
  let s2 := match engineStatus with
    | some d => { s1 with duration := d.getD 0 }
    | none => s1
  (s2, unloadCmds)

/-- togglePlayPause of the audio screen (audio.tsx lines 126-138): returns
immediately when no sound is set; otherwise reads the engine status
(`engineLoaded` models `status.isLoaded`) and only when loaded issues the
pause or play command and flips the local isPlaying flag. -/
def audioTogglePlayPause (s : AudioScreen) (engineLoaded : Bool) : AudioScreen × List EngineCmd :=
  match s.sound with
  | none => (s, [])
  | some _ =>
      if engineLoaded then
        ({ s with isPlaying := !s.isPlaying },
         if s.isPlaying then [EngineCmd.pause] else [EngineCmd.play])
      else (s, [])

/-- Events of the audio screen. There is no status-callback event: the
source registers no onPlaybackStatusUpdate handler for the sound, so the
only operations that ever run are the pick and the toggle. -/
inductive AudioEvent where
  | pick (uri : String) (name : Option String) (newSound : Nat)
      (engineStatus : Option (Option Nat))
  | toggle (engineLoaded : Bool)

/-- One step of the audio screen. -/
def stepAudio (s : AudioScreen) : AudioEvent → AudioScreen
  | .pick uri name h es => (pickAudioSuccess s uri name h es).1
  | .toggle el => (audioTogglePlayPause s el).1

/-- Run of the audio screen from its initial state. -/
def runAudio (evs : List AudioEvent) : AudioScreen :=
  evs.foldl stepAudio initAudioScreen

/-- `String.prototype.padStart(2, "0")`: the argument is the decimal image
of a number below 60, hence of length 1 or 2. -/
def padStart2 (str : String) : String :=
  if str.length < 2 then ("0") ++ str else str

/-- formatTime (index.tsx lines 157-162 and audio.tsx lines 140-145). -/
def formatTime (millis : Nat) : String :=
  let totalSeconds := millis / 1000
  let minutes := totalSeconds / 60
  let seconds := totalSeconds % 60
  toString minutes ++ (":") ++ padStart2 (toString seconds)

/-- The rendered progress-bar width of the audio screen (audio.tsx line
219): `duration > 0 ? (position / duration) * 100 : 0`. -/
def progressPercent (s : AudioScreen) : ℚ :=
  if s.duration > 0 then ((s.position : ℚ) / (s.duration : ℚ)) * 100 else 0

/-- The two media kinds of the library screen. -/
inductive MediaKind where
  | video
  | audio
deriving DecidableEq, BEq

/-- A MediaFile entry of the library screen (part_000 lines 24-33). -/
structure MediaFile where
  id : String
  name : String
  uri : String
  type : MediaKind
  size : Nat
  duration : Option Nat
  thumbnail : Option String
  addedAt : Nat
deriving DecidableEq

/-- An asset returned by the document picker, as the library screen reads
it: optional name, uri, optional mime type, optional size. -/
structure PickedAsset where
  name : Option String
  uri : String
  mimeType : Option String
  size : Option Nat
deriving DecidableEq

/-- JavaScript `String.prototype.startsWith`, expressed over the character
sequences of the two strings. -/
def jsStartsWith (s pre : String) : Bool :=
  pre.data.isPrefixOf s.data

/-- Kind classification of part_000 line 62:
`asset.mimeType?.startsWith("video/") ? "video" : "audio"` (an undefined
mime type is not video, hence audio). -/
def assetKind (a : PickedAsset) : MediaKind :=
  if jsStartsWith (a.mimeType.getD ("")) ("video/") then MediaKind.video else MediaKind.audio

/-- The non-canceled branch of addMediaFile (part_000 lines 57-67): map
each asset to an entry with id `Date.now() + "-" + index`, defaulted name
and size, the classified kind and the add timestamp, and append them all
in input order. `now` is the Date.now() value of the call. -/
def addMediaFiles (files : List MediaFile) (assets : List PickedAsset) (now : Nat) : List MediaFile :=
  files ++ assets.enum.map (fun p =>
    { id := toString now ++ ("-") ++ toString p.1
      name := p.2.name.getD ("Unknown")
      uri := p.2.uri
      type := assetKind p.2
      size := p.2.size.getD 0
      duration := none
      thumbnail := none
      addedAt := now })

/-- The confirmed branch of removeMediaFile (part_000 line 84):
keep every file whose id differs. -/
def removeMediaFile (files : List MediaFile) (id : String) : List MediaFile :=
  files.filter (fun f => f.id != id)

/-- The selectedType filter of the library screen. -/
inductive SelectedType where
  | all
  | video
  | audio
deriving DecidableEq

/-- filteredFiles (part_000 lines 99-102): all entries when the filter is
"all", else the entries of the selected kind, in original order. -/
def filteredFiles (files : List MediaFile) (selectedType : SelectedType) : List MediaFile :=
  files.filter (fun f => match selectedType with
    | .all => true
    | .video => f.type == MediaKind.video
    | .audio => f.type == MediaKind.audio)

/-- The on-demand kind count (part_000 lines 195, 219, 225):
`mediaFiles.filter(f => f.type === kind).length`. -/
def countByKind (files : List MediaFile) (k : MediaKind) : Nat :=
  (files.filter (fun f => f.type == k)).length

/-- Demo asset a.mp4 of the reference scenario. -/
def demoAssetA : PickedAsset :=
  { name := some ("a.mp4"), uri := ("file:a"), mimeType := some ("video/mp4"), size := some 100 }

/-- Demo asset b.mp3 of the reference scenario. -/
def demoAssetB : PickedAsset :=
  { name := some ("b.mp3"), uri := ("file:b"), mimeType := some ("audio/mpeg"), size := some 50 }

/-- The library after adding a.mp4 at time 1000 and then b.mp3 at time
2000 (two add calls, one asset each). -/
def demoLib : List MediaFile :=
  addMediaFiles (addMediaFiles [] [demoAssetA] 1000) [demoAssetB] 2000

/-- A concrete video-screen state used to exhibit the stale-event
behavior: two successive loads (epochs 1 and 2) followed by a status
event of the current engine. -/
def staleDemoState : VideoScreen :=
  onPlaybackStatusUpdate
    (pickVideoSuccess (pickVideoSuccess initVideoScreen ("a.mp4") (some ("a.mp4")))
      ("b.mp4") (some ("b.mp4")))
    (AVPlaybackStatus.loaded true 1000 (some 60000))

/-- A concrete controls state: one pending timeout with handle 0, due at
3000, whose callback captured isPlaying = false; host time already 3000. -/
def ctlDemo : ControlsState :=
  { now := 3000, nextId := 1, pending := [⟨0, 3000, false⟩], refId := some 0
    isPlaying := false, showControls := true }

/-- A concrete video-screen state with the ref live and a loaded status at
position 5000 with duration 60000. -/
def seekDemoState : VideoScreen :=
  { initVideoScreen with videoRefLive := true
                         status := AVPlaybackStatus.loaded false 5000 (some 60000) }

/-- A concrete video-screen state whose speed selection is "2x" and whose
status is a loaded playing status. -/
def speedDemoState : VideoScreen :=
  { initVideoScreen with currentSpeed := ("2x")
                         status := AVPlaybackStatus.loaded true 5000 (some 60000) }

theorem ctlInv_reset_pending (s : ControlsState) (h : CtlInv s) :
    (resetControlsTimeout s).pending = [⟨s.nextId, s.now + 3000, s.isPlaying⟩] := by
  cases hr : s.refId with
  | none =>
    have hp : s.pending = [] := by
      cases hp : s.pending with
      | nil => rfl
      | cons t ts =>
        have h1 := h.1 t (by rw [hp]; exact List.mem_cons_self t ts)
        rw [hr] at h1
        cases h1
    simp [resetControlsTimeout, hr, hp]
  | some i =>
    have hp : clearPending s.pending i = [] := by
      apply List.filter_eq_nil_iff.mpr
      intro t ht
      have h1 := h.1 t ht
      rw [hr] at h1
      have h2 : i = t.id := Option.some.inj h1
      simp [← h2]
    simp [resetControlsTimeout, hr, hp]

theorem ctlInv_reset (s : ControlsState) (h : CtlInv s) : CtlInv (resetControlsTimeout s) := by
  have hp := ctlInv_reset_pending s h
  constructor
  · intro t ht
    rw [hp] at ht
    simp only [List.mem_singleton] at ht
    subst ht
    rfl
  · rw [hp]
    simp

theorem ctlInv_fire (s : ControlsState) (i : Nat) (h : CtlInv s) : CtlInv (fireTimer s i) := by
  cases hf : s.pending.find? (fun t => t.id == i) with
  | none => simpa [fireTimer, hf] using h
  | some t =>
    by_cases hd : t.deadline ≤ s.now
    · constructor
      · intro u hu
        simp only [fireTimer, hf, hd, if_true, clearPending] at hu ⊢
        exact h.1 u (List.mem_of_mem_filter hu)
      · simp only [fireTimer, hf, hd, if_true, clearPending]
        exact le_trans (List.length_filter_le _ _) h.2
    · simpa [fireTimer, hf, hd] using h

theorem ctlInv_step (s : ControlsState) (e : CtlEvent) (h : CtlInv s) : CtlInv (stepCtl s e) := by
  cases e with
  | touch => exact ctlInv_reset _ h
  | playState b => exact h
  | tick d => exact h
  | fire i => exact ctlInv_fire s i h

theorem ctlInv_foldl (evs : List CtlEvent) :
    ∀ s : ControlsState, CtlInv s → CtlInv (evs.foldl stepCtl s) := by
  induction evs with
  | nil => intro s h; exact h
  | cons e rest ih => intro s h; exact ih _ (ctlInv_step s e h)

theorem ctlInv_initCtl : CtlInv initCtl :=
  ⟨by intro t ht; simp [initCtl] at ht, by simp [initCtl]⟩

theorem ctlInv_run (evs : List CtlEvent) : CtlInv (runCtl evs) :=
  ctlInv_foldl evs initCtl ctlInv_initCtl

theorem fireTimer_single (s : ControlsState) (t : TimerEntry)
    (hp : s.pending = [t]) (hd : t.deadline ≤ s.now) :
    (fireTimer s t.id).pending = [] := by
  simp [fireTimer, hp, hd, clearPending]

theorem fireTimer_nil (s : ControlsState) (i : Nat) (h : s.pending = []) :
    fireTimer s i = s := by
  simp [fireTimer, h]

theorem posAfter_le (d : Nat) (dirs : List Bool) :
    ∀ pos : Nat, pos ≤ d → posAfter d dirs pos ≤ d := by
  induction dirs with
  | nil => intro pos h; simpa [posAfter] using h
  | cons dir rest ih =>
    intro pos h
    have hstep : (if dir then seekForwardTarget pos d else seekBackwardTarget pos) ≤ d := by
      cases dir <;> simp [seekForwardTarget, seekBackwardTarget] <;> omega
    simpa [posAfter, List.foldl_cons] using ih _ hstep

theorem stepAudio_position (s : AudioScreen) (e : AudioEvent) :
    (stepAudio s e).position = s.position := by
  cases e with
  | pick uri name h es => cases es <;> simp [stepAudio, pickAudioSuccess]
  | toggle el =>
    cases hs : s.sound with
    | none => simp [stepAudio, audioTogglePlayPause, hs]
    | some x => cases el <;> simp [stepAudio, audioTogglePlayPause, hs]

theorem foldl_stepAudio_position (evs : List AudioEvent) :
    ∀ s : AudioScreen, (evs.foldl stepAudio s).position = s.position := by
  induction evs with
  | nil => intro s; rfl
  | cons e rest ih => intro s; rw [List.foldl_cons, ih, stepAudio_position]

/-- C1 (counterexample): after two loads the current engine binding has
epoch 2; a status event tagged with the released epoch 1 is nevertheless
applied and changes the session status — the code performs no
epoch-discard. -/
theorem stale_event_changes_status :
    staleDemoState.engineEpoch = 2 ∧
    (deliverStatus staleDemoState 1 AVPlaybackStatus.unloaded).status ≠ staleDemoState.status :=
  ⟨rfl, by decide⟩

/-- C1 (amended): the status handler applies every delivered event
unconditionally: the new status is the event payload, and delivery does
not depend on the epoch tag of the originating adapter, so a stale event
from a released adapter overwrites status like any other event. -/
theorem status_event_applied_unconditionally (s : VideoScreen) (srcEpoch : Nat)
    (e : AVPlaybackStatus) :
    (deliverStatus s srcEpoch e).status = e ∧
    deliverStatus s srcEpoch e = deliverStatus s s.engineEpoch e :=
  ⟨rfl, rfl⟩

/-- C2: both seek operations issue a seek to exactly the clamped target
`clamp(positionMillis + delta, 0, durationMillis ?? positionMillis)` at
their deltas (-10000, +10000); for all sequences of such seeks the
position stays within [0, durationMillis] once the duration is known;
and a backward seek at position 5000 yields 0, never a negative value. -/
theorem seekBy_clamped (pos d : Nat) (dirs : List Bool) (v : VideoScreen) (p : Bool)
    (h : pos ≤ d) (hlive : v.videoRefLive = true)
    (hst : v.status = AVPlaybackStatus.loaded p pos (some d)) :
    seekBackwardTarget pos = specSeekTarget pos (some d) (-10000) ∧
    seekForwardTarget pos d = specSeekTarget pos (some d) 10000 ∧
    seekBackwardTarget pos = specSeekTarget pos none (-10000) ∧
    (seekBackward v).2 = [EngineCmd.seekTo (seekBackwardTarget pos)] ∧
    (seekForward v).2 = [EngineCmd.seekTo (seekForwardTarget pos d)] ∧
    posAfter d dirs pos ≤ d ∧
    seekBackwardTarget 5000 = 0 := by
  refine ⟨?_, ?_, ?_, ?_, ?_, posAfter_le d dirs pos h, by decide⟩
  · unfold seekBackwardTarget specSeekTarget
    simp only [Option.getD]
    omega
  · unfold seekForwardTarget specSeekTarget
    simp only [Option.getD]
    omega
  · unfold seekBackwardTarget specSeekTarget
    simp only [Option.getD]
    omega
  · simp [seekBackward, hst, hlive]
  · simp [seekForward, hst, hlive]

/-- C2 (witness): the theorem instantiated at position 5000, duration
60000, and the seek sequence forward-backward-backward. -/
theorem seekBy_clamped_witness :
    5000 ≤ 60000 ∧ seekDemoState.videoRefLive = true ∧
    seekDemoState.status = AVPlaybackStatus.loaded false 5000 (some 60000) ∧
    (seekBackwardTarget 5000 = specSeekTarget 5000 (some 60000) (-10000) ∧
     seekForwardTarget 5000 60000 = specSeekTarget 5000 (some 60000) 10000 ∧
     seekBackwardTarget 5000 = specSeekTarget 5000 none (-10000) ∧
     (seekBackward seekDemoState).2 = [EngineCmd.seekTo (seekBackwardTarget 5000)] ∧
     (seekForward seekDemoState).2 = [EngineCmd.seekTo (seekForwardTarget 5000 60000)] ∧
     posAfter 60000 [true, false, false] 5000 ≤ 60000 ∧
     seekBackwardTarget 5000 = 0) :=
  ⟨by decide, rfl, rfl,
   seekBy_clamped 5000 60000 [true, false, false] seekDemoState false (by decide) rfl rfl⟩

/-- C3: for every reachable controls state there is at most one pending
hide timeout; a touch replaces the pending timeout by exactly one fresh
timeout due 3000 ms after the touch; once due it fires (emptying the
pending set) and a repeated fire of the same handle is a no-op, so the
hide fires exactly once, 3000 ms after the latest touch. -/
theorem controls_single_pending_timer (evs : List CtlEvent) :
    (runCtl evs).pending.length ≤ 1 ∧
    (stepCtl (runCtl evs) CtlEvent.touch).pending =
      [⟨(runCtl evs).nextId, (runCtl evs).now + 3000, (runCtl evs).isPlaying⟩] ∧
    (fireTimer (stepCtl (stepCtl (runCtl evs) CtlEvent.touch) (CtlEvent.tick 3000))
        (runCtl evs).nextId).pending = [] ∧
    fireTimer (fireTimer (stepCtl (stepCtl (runCtl evs) CtlEvent.touch) (CtlEvent.tick 3000))
        (runCtl evs).nextId) (runCtl evs).nextId =
      fireTimer (stepCtl (stepCtl (runCtl evs) CtlEvent.touch) (CtlEvent.tick 3000))
        (runCtl evs).nextId := by
  have hinv := ctlInv_run evs
  have h1 : (stepCtl (runCtl evs) CtlEvent.touch).pending =
      [⟨(runCtl evs).nextId, (runCtl evs).now + 3000, (runCtl evs).isPlaying⟩] :=
    ctlInv_reset_pending { runCtl evs with showControls := true } hinv
  have h2 : (stepCtl (stepCtl (runCtl evs) CtlEvent.touch) (CtlEvent.tick 3000)).pending =
      [⟨(runCtl evs).nextId, (runCtl evs).now + 3000, (runCtl evs).isPlaying⟩] := h1
  have h3 : (fireTimer (stepCtl (stepCtl (runCtl evs) CtlEvent.touch) (CtlEvent.tick 3000))
      (runCtl evs).nextId).pending = [] :=
    fireTimer_single _ ⟨(runCtl evs).nextId, (runCtl evs).now + 3000, (runCtl evs).isPlaying⟩
      h2 (le_refl _)
  exact ⟨hinv.2, h1, h3, fireTimer_nil _ _ h3⟩

/-- C4 (counterexample): start playing, touch (arming the hide with
isPlaying captured true), then a stop event arrives — the pending hide is
not cancelled — and when the timeout fires the controls are hidden even
though playback is no longer active. -/
theorem hide_fires_while_paused :
    (runCtl [CtlEvent.playState true, CtlEvent.touch, CtlEvent.playState false]).pending ≠ [] ∧
    (runCtl [CtlEvent.playState true, CtlEvent.touch, CtlEvent.playState false,
        CtlEvent.tick 3000, CtlEvent.fire 0]).showControls = false ∧
    (runCtl [CtlEvent.playState true, CtlEvent.touch, CtlEvent.playState false,
        CtlEvent.tick 3000, CtlEvent.fire 0]).isPlaying = false :=
  ⟨by decide, by decide, by decide⟩

/-- C4 (amended): a playback-state event never cancels a pending hide
timeout; a touch always schedules a hide timeout, whether or not playback
is active; and a fired timeout hides the controls exactly when isPlaying
was true at scheduling time — in particular a timeout whose callback
captured isPlaying = false leaves the controls visible. -/
theorem controls_hide_policy (s : ControlsState) (b : Bool) (i : Nat) (t : TimerEntry)
    (hf : s.pending.find? (fun u => u.id == i) = some t)
    (hc : t.capturedIsPlaying = false) :
    (stepCtl s (CtlEvent.playState b)).pending = s.pending ∧
    (stepCtl s CtlEvent.touch).pending ≠ [] ∧
    (fireTimer s i).showControls = s.showControls := by
  refine ⟨rfl, ?_, ?_⟩
  · cases hr : s.refId <;> simp [stepCtl, resetControlsTimeout, hr]
  · by_cases hd : t.deadline ≤ s.now <;> simp [fireTimer, hf, hc, hd]

/-- C4 (witness): the amended theorem at the concrete state ctlDemo. -/
theorem controls_hide_policy_witness :
    ctlDemo.pending.find? (fun u => u.id == 0) = some ⟨0, 3000, false⟩ ∧
    (⟨0, 3000, false⟩ : TimerEntry).capturedIsPlaying = false ∧
    ((stepCtl ctlDemo (CtlEvent.playState true)).pending = ctlDemo.pending ∧
     (stepCtl ctlDemo CtlEvent.touch).pending ≠ [] ∧
     (fireTimer ctlDemo 0).showControls = ctlDemo.showControls) :=
  ⟨by decide, rfl, controls_hide_policy ctlDemo true 0 ⟨0, 3000, false⟩ (by decide) rfl⟩

/-- C5: from any label of the speed table, eight advances return to the
same label, and one advance from "1x" gives "1.25x". -/
theorem cycleSpeed_cyclic (lbl : String) (h : lbl ∈ speedKeys) :
    nextSpeedLabel^[8] lbl = lbl ∧ nextSpeedLabel ("1x") = ("1.25x") := by
  refine ⟨?_, by decide⟩
  have h2 : lbl = ("0.5x") ∨ lbl = ("0.75x") ∨ lbl = ("1x") ∨ lbl = ("1.25x") ∨
      lbl = ("1.5x") ∨ lbl = ("2x") ∨ lbl = ("3x") ∨ lbl = ("4x") := by
    simpa [speedKeys, PLAYBACK_SPEEDS] using h
  rcases h2 with rfl | rfl | rfl | rfl | rfl | rfl | rfl | rfl <;> decide

/-- C5 (witness): the theorem at the label "1x". -/
theorem cycleSpeed_cyclic_witness :
    ("1x") ∈ speedKeys ∧
    (nextSpeedLabel^[8] ("1x") = ("1x") ∧ nextSpeedLabel ("1x") = ("1.25x")) :=
  ⟨by decide, cycleSpeed_cyclic ("1x") (by decide)⟩

/-- C6 (counterexample): after a successful pick the status is still the
initial empty object (nothing loaded yet), but togglePlayPause already
issues a play command, because the video screen guards only on the ref
being live, not on isLoaded. -/
theorem video_toggle_unloaded_issues_play :
    (pickVideoSuccess initVideoScreen ("movie.mp4") (some ("movie.mp4"))).status
      = AVPlaybackStatus.empty ∧
    (videoTogglePlayPause
      (pickVideoSuccess initVideoScreen ("movie.mp4") (some ("movie.mp4")))).2
      = [EngineCmd.play] :=
  ⟨rfl, rfl⟩

/-- C6 (amended): with no media picked at all (video ref not live, or no
sound object) togglePlayPause issues no engine command and leaves the
status and the playing flag unchanged, and the audio toggle is also a
no-op whenever the engine reports not loaded; but the video screen, with
a ref live and media not yet loaded, does issue a command (see the
counterexample). -/
theorem togglePlayPause_not_loaded (v : VideoScreen) (a1 a2 : AudioScreen) (el : Bool)
    (hv : v.videoRefLive = false) (ha : a1.sound = none) :
    (videoTogglePlayPause v).2 = [] ∧
    (videoTogglePlayPause v).1.status = v.status ∧
    (videoTogglePlayPause v).1.isPlaying = v.isPlaying ∧
    audioTogglePlayPause a1 el = (a1, []) ∧
    audioTogglePlayPause a2 false = (a2, []) := by
  refine ⟨by simp [videoTogglePlayPause, hv], rfl, rfl,
    by simp [audioTogglePlayPause, ha], ?_⟩
  cases hs : a2.sound <;> simp [audioTogglePlayPause, hs]

/-- C6 (witness): the amended theorem at the initial screens and a loaded
sound handle with a not-loaded engine report. -/
theorem togglePlayPause_not_loaded_witness :
    initVideoScreen.videoRefLive = false ∧
    initAudioScreen.sound = none ∧
    ((videoTogglePlayPause initVideoScreen).2 = [] ∧
     (videoTogglePlayPause initVideoScreen).1.status = initVideoScreen.status ∧
     (videoTogglePlayPause initVideoScreen).1.isPlaying = initVideoScreen.isPlaying ∧
     audioTogglePlayPause initAudioScreen true = (initAudioScreen, []) ∧
     audioTogglePlayPause { initAudioScreen with sound := some 0 } false
       = ({ initAudioScreen with sound := some 0 }, [])) :=
  ⟨rfl, rfl,
   togglePlayPause_not_loaded initVideoScreen initAudioScreen
     { initAudioScreen with sound := some 0 } true rfl rfl⟩

/-- C7 (counterexample): on a loaded, paused video session the toggle
issues a play command but the local isPlaying flag is still false right
after the call — the video screen performs no optimistic flip. -/
theorem video_toggle_does_not_flip_flag :
    (videoTogglePlayPause (onPlaybackStatusUpdate
        (pickVideoSuccess initVideoScreen ("m.mp4") (some ("m.mp4")))
        (AVPlaybackStatus.loaded false 0 (some 60000)))).2 = [EngineCmd.play] ∧
    (videoTogglePlayPause (onPlaybackStatusUpdate
        (pickVideoSuccess initVideoScreen ("m.mp4") (some ("m.mp4")))
        (AVPlaybackStatus.loaded false 0 (some 60000)))).1.isPlaying = false :=
  ⟨rfl, rfl⟩

/-- C7 (amended): the video screen toggle leaves the local isPlaying flag
untouched, and every delivered status event carrying the isLoaded key
sets the flag to the engine-reported value (so the flag always equals the
engine value after a status event); the audio screen toggle, by contrast,
flips its local flag optimistically the moment the command is issued. -/
theorem toggle_and_reconcile (v : VideoScreen) (e : AVPlaybackStatus) (a : AudioScreen)
    (he : e.hasIsLoadedKey = true) (ha : a.sound.isSome = true) :
    (videoTogglePlayPause v).1.isPlaying = v.isPlaying ∧
    (onPlaybackStatusUpdate v e).isPlaying = e.isPlayingOrFalse ∧
    (audioTogglePlayPause a true).1.isPlaying = !a.isPlaying := by
  refine ⟨rfl, by simp [onPlaybackStatusUpdate, he], ?_⟩
  cases hs : a.sound with
  | none => simp [hs] at ha
  | some x => simp [audioTogglePlayPause, hs]

/-- C7 (witness): the amended theorem at the initial video screen, a
loaded status event, and an audio screen with a sound handle. -/
theorem toggle_and_reconcile_witness :
    (AVPlaybackStatus.loaded true 500 (some 60000)).hasIsLoadedKey = true ∧
    ({ initAudioScreen with sound := some 0 } : AudioScreen).sound.isSome = true ∧
    ((videoTogglePlayPause initVideoScreen).1.isPlaying = initVideoScreen.isPlaying ∧
     (onPlaybackStatusUpdate initVideoScreen
        (AVPlaybackStatus.loaded true 500 (some 60000))).isPlaying
       = (AVPlaybackStatus.loaded true 500 (some 60000)).isPlayingOrFalse ∧
     (audioTogglePlayPause { initAudioScreen with sound := some 0 } true).1.isPlaying
       = !({ initAudioScreen with sound := some 0 } : AudioScreen).isPlaying) :=
  ⟨rfl, rfl,
   toggle_and_reconcile initVideoScreen (AVPlaybackStatus.loaded true 500 (some 60000))
     { initAudioScreen with sound := some 0 } rfl rfl⟩

/-- C8 (counterexample): picking a new file while the speed selection is
"2x" and a video is loaded leaves the speed selection at "2x" (not the
entry for 1.0) and leaves the status untouched (not reset). -/
theorem pick_keeps_old_speed :
    (pickVideoSuccess speedDemoState ("n.mp4") (some ("n.mp4"))).currentSpeed = ("2x") ∧
    (("2x") : String) ≠ ("1x") ∧
    (pickVideoSuccess speedDemoState ("n.mp4") (some ("n.mp4"))).status
      = AVPlaybackStatus.loaded true 5000 (some 60000) :=
  ⟨rfl, by decide, rfl⟩

/-- C8 (amended): a successful pick writes only the media uri and the file
name; status, the playing flag and the speed selection are all left
exactly as they were (any reset happens only later, through status events
of the newly mounted engine). -/
theorem pick_sets_only_uri_and_name (s : VideoScreen) (uri : String) (name : Option String) :
    (pickVideoSuccess s uri name).videoUri = some uri ∧
    (pickVideoSuccess s uri name).currentFileName = name.getD ("Unknown") ∧
    (pickVideoSuccess s uri name).status = s.status ∧
    (pickVideoSuccess s uri name).isPlaying = s.isPlaying ∧
    (pickVideoSuccess s uri name).currentSpeed = s.currentSpeed :=
  ⟨rfl, rfl, rfl, rfl, rfl⟩

/-- C9: add appends in input order to the end of the catalog, filtering is
an order-preserving non-destructive view, and the reference scenario
holds: after adding a.mp4 (video) and then b.mp3 (audio), the video
filter yields exactly a.mp4, the audio count is 1, removing the id of
a.mp4 leaves exactly b.mp3 under the "all" filter, and removing an
absent id is a no-op. -/
theorem library_scenario (files : List MediaFile) (assets : List PickedAsset)
    (now : Nat) (sel : SelectedType) :
    addMediaFiles files assets now = files ++ addMediaFiles [] assets now ∧
    List.Sublist (filteredFiles files sel) files ∧
    (filteredFiles demoLib SelectedType.video).map MediaFile.name = [("a.mp4")] ∧
    countByKind demoLib MediaKind.audio = 1 ∧
    (filteredFiles (removeMediaFile demoLib ("1000-0")) SelectedType.all).map MediaFile.name
      = [("b.mp3")] ∧
    removeMediaFile demoLib ("absent-id") = demoLib := by
  refine ⟨by simp [addMediaFiles], ?_, by decide, by decide, by decide, by decide⟩
  unfold filteredFiles
  exact List.filter_sublist files

/-- C10: in the audio screen the position is never written by any
operation sequence: after every run the position is 0, the rendered
progress ratio is 0, the elapsed-time label reads "0:00", while a pick
whose engine report is loaded with a known duration stores that real
duration for the duration label. -/
theorem audio_position_never_updated (evs : List AudioEvent) (uri : String)
    (name : Option String) (hnd d : Nat) :
    (runAudio evs).position = 0 ∧
    progressPercent (runAudio evs) = 0 ∧
    formatTime (runAudio evs).position = ("0:00") ∧
    (stepAudio (runAudio evs) (AudioEvent.pick uri name hnd (some (some d)))).duration = d := by
  have hpos : (runAudio evs).position = 0 :=
    foldl_stepAudio_position evs initAudioScreen
  refine ⟨hpos, ?_, ?_, ?_⟩
  · unfold progressPercent
    rw [hpos]
    split <;> simp
  · rw [hpos]
    decide
  · simp [stepAudio, pickAudioSuccess]
